import Mathlib

/-!
Verification of the `fairy-story-generator` frontend against its
natural-language specification.

The development shallowly embeds the frontend modules the claims are about:

* `src/frontend/src/lib/api.ts` — the HTTP client (error messages, list limits);
* `src/frontend/src/hooks/useStoryPolling.ts` — the progress-polling hook,
  embedded as an explicit event-driven state machine;
* `src/frontend/src/app/create/page.tsx` — the creation wizard
  (`handleGenerate` validation, the scene-card rendering order);
* `src/frontend/src/app/story/[id]/page.tsx` — the full-story viewer
  (scene navigation, scene lookup);
* `src/unnamed/part_001` — the alternate client with `getStories`;
* `src/unnamed/part_006` — the `{current, total}` progress-bar variant.

JavaScript values that matter to the claims are modelled explicitly:
`undefined`-able fields become `Option`, `x || y` on strings keeps the
empty string falsy, array indexing out of bounds yields `none`, and the
progress-bar arithmetic uses an extended-rational model of JS numbers
with `nan` and signed infinities.
-/

namespace FairyStory

/-! ## Shared types (`src/frontend/src/types/story.ts`, `src/frontend/src/lib/api.ts`) -/

/-- Story length values, `StoryLength` in `types/story.ts`: "short" | "medium" | "long". -/
inductive StoryLength where
  | short | medium | long
  deriving DecidableEq, Repr

/-- Story tone values, `StoryTone` in `types/story.ts`: "funny" | "adventurous" | "gentle". -/
inductive StoryTone where
  | funny | adventurous | gentle
  deriving DecidableEq, Repr

/-- The story status values that reach the polling hook from the backend
(`StoryProgressResponse.status` in `api.ts`): "generating" | "completed" | "failed". -/
inductive RespStatus where
  | generating | completed | failed
  deriving DecidableEq, Repr

/-- The polling hook's own status state, initialised to `'idle'`
(`useStoryPolling.ts`, the `useState` for `status`). -/
inductive HookStatus where
  | idle | generating | completed | failed
  deriving DecidableEq, Repr

/-- The cast `setStatus(data.status as any)`: it maps a response status into
the hook's status state. -/
def HookStatus.ofResp : RespStatus → HookStatus
  | .generating => .generating
  | .completed => .completed
  | .failed => .failed

/-- One element of a progress response's `scenes` array, with the fields the
creation page dereferences (`scene.id`, `scene.sceneOrder`, `scene.imageUrl`,
`scene.audioUrl`, `scene.paragraphText`). -/
structure SceneData where
  id : Nat
  sceneOrder : Nat
  paragraphText : String
  imageUrl : Option String
  audioUrl : Option String
  deriving DecidableEq, Repr

/-- The `progress` block of `StoryProgressResponse` in `api.ts`:
`{ completed, total, percentage }`. -/
structure ProgressBlock where
  completed : Nat
  total : Nat
  percentage : Rat
  deriving DecidableEq, Repr

/-- A progress response as consumed by the polling hook: `data.status`,
`data.progress`, `data.scenes`.  `progress` and `scenes` may be `undefined`
(the hook guards with `data.scenes || []`), hence `Option`. -/
structure ProgressResponse where
  status : RespStatus
  progress : Option ProgressBlock
  scenes : Option (List SceneData)
  deriving DecidableEq, Repr

/-! ## HTTP client (`src/frontend/src/lib/api.ts`) -/

/-- The slice of a `fetch` response the client inspects on the error path:
`response.ok`, `response.statusText`, and the `detail` field of the parsed
JSON body (`none` when the body has no such field). -/
structure HttpResponse where
  ok : Bool
  statusText : String
  bodyDetail : Option String
  deriving DecidableEq, Repr

/-- JavaScript `v || fallback` on an optional string: the empty string is
falsy, so both an absent and an empty `detail` select the fallback. -/
def jsStringOr (v : Option String) (fallback : String) : String :=
  match v with
  | some s => if s = "" then fallback else s
  | none => fallback

/-- Error path of `generateStory` (`api.ts` lines 42–46):
`throw new Error(error.detail || 'Failed to generate story')`. -/
def generateStoryError (r : HttpResponse) : String :=
  jsStringOr r.bodyDetail "Failed to generate story"

/-- Error path of `getStoryProgress` (`api.ts` lines 66–69):
`throw new Error(`Failed to fetch progress: ${response.statusText}`)` —
the response body is never read on this path. -/
def getStoryProgressError (r : HttpResponse) : String :=
  "Failed to fetch progress: " ++ r.statusText

/-- Error path of `getStory` (`api.ts` lines 89–92):
`throw new Error('Story not found')` — a fixed message, the body's detail
is ignored. -/
def getStoryError (_r : HttpResponse) : String :=
  "Story not found"

/-- Error path of `listStories` (`api.ts` lines 110–113):
`throw new Error('Failed to list stories')` — a fixed message. -/
def listStoriesError (_r : HttpResponse) : String :=
  "Failed to list stories"

/-- Default backend base URL (`api.ts` line 1, when `NEXT_PUBLIC_API_URL`
is unset). -/
def API_BASE_URL : String := "http://127.0.0.1:8000"

/-- The URL `listStories` fetches (`api.ts`): default parameter
`limit: number = 10`, so a call without an explicit limit uses 10. -/
def listStoriesUrl (limit : Option Nat) : String :=
  API_BASE_URL ++ "/api/v1/stories?limit=" ++ toString (limit.getD 10)

/-- The URL `getStories` fetches (`src/unnamed/part_001`): default parameter
`limit: number = 20`, so a call without an explicit limit uses 20. -/
def getStoriesUrl (limit : Option Nat) : String :=
  API_BASE_URL ++ "/api/v1/stories/?limit=" ++ toString (limit.getD 20)

/-! ## Creation wizard submit (`src/frontend/src/app/create/page.tsx`) -/

/-- The request body `handleGenerate` passes to the generation hook
(matching `StoryGenerationRequest` in `api.ts`; `theme`, `image_style` and
`voice` are always supplied by the page, so they are plain fields here).
The page's `Theme` union is carried as its string label. -/
structure StoryGenerationRequest where
  child_name : String
  prompt : String
  story_length : StoryLength
  story_tone : StoryTone
  theme : String
  image_style : String
  voice : String
  deriving DecidableEq, Repr

/-- The creation wizard's form state, restricted to the fields
`handleGenerate` reads. -/
structure CreateForm where
  childName : String
  prompt : String
  storyLength : StoryLength
  storyTone : StoryTone
  theme : String
  imageStyle : String
  voice : String
  deriving DecidableEq, Repr

/-- JavaScript `String.prototype.trim`: strip leading and trailing
whitespace.  Modelled structurally over the character list so that it
computes by reduction. -/
def jsTrim (s : String) : String :=
  String.mk (((s.data.dropWhile Char.isWhitespace).reverse.dropWhile
    Char.isWhitespace).reverse)

/-- The submit handler `handleGenerate` (`create/page.tsx` lines 120–142) as a pure function of
the form state.  Returns the inline error message set by `setError` together
with the request passed to `generateStory` (`none` when validation fails and
no request is issued).  `!childName.trim() || !prompt.trim()` rejects when
either trimmed string is empty. -/
def handleGenerate (f : CreateForm) : String × Option StoryGenerationRequest :=
  if jsTrim f.childName = "" ∨ jsTrim f.prompt = "" then
    ("Please enter child name and story idea!  🎈", none)
  else
    ("", some { child_name := f.childName
                prompt := f.prompt
                story_length := f.storyLength
                story_tone := f.storyTone
                theme := f.theme
                image_style := f.imageStyle
                voice := f.voice })

/-- The scene-order labels of the cards the creation page renders
(`create/page.tsx` lines 240–251): `scenes.map(scene => … Scene
{scene.sceneOrder} …)` — the list is mapped in array order, no sort. -/
def sceneCardOrders (scenes : List SceneData) : List Nat :=
  scenes.map (·.sceneOrder)

/-! ## Polling hook (`src/frontend/src/hooks/useStoryPolling.ts`)

The hook is embedded as an event-driven state machine over the JavaScript
event loop's atomicity: each synchronous block of `poll` runs without
interleaving.  A `tick` event is the interval (or the immediate call in
`startPolling`) invoking `poll` up to its `await`; a `response`/`failure`
event is the continuation of one outstanding `getStoryProgress` call.
`requestsIssued` and `terminalObserved` are ghost fields recording,
respectively, how many progress requests have been sent and whether a
response with a terminal status has been processed. -/

/-- The poll ceiling: `MAX_POLLS = 60; // 2 minutes max`. -/
def MAX_POLLS : Nat := 60

/-- The state of one mounted use of `useStoryPolling`:
React state (`progress`, `scenes`, `status`, `isPolling`), the refs
(`intervalRef` as `intervalActive`, `isMountedRef` as `mounted`,
`pollCountRef` as `pollCount`), plus the number of in-flight
`getStoryProgress` calls and the two ghost fields. -/
structure PollState where
  storyId : Option String
  mounted : Bool
  isPolling : Bool
  intervalActive : Bool
  pollCount : Nat
  pending : Nat
  progress : Option ProgressBlock
  scenes : List SceneData
  status : HookStatus
  requestsIssued : Nat
  terminalObserved : Bool
  deriving DecidableEq, Repr

/-- Events of the polling state machine. -/
inductive PollEvent where
  | tick
  | response (data : ProgressResponse)
  | failure
  | unmount
  deriving DecidableEq, Repr

/-- Whether a response status is terminal
(`data.status === 'completed' || data.status === 'failed'`). -/
def RespStatus.isTerminal : RespStatus → Bool
  | .completed => true
  | .failed => true
  | .generating => false

/-- The hook's `stopPolling`: `setIsPolling(false); clearInterval(...); intervalRef.current = null`. -/
def stopPolling (s : PollState) : PollState :=
  { s with isPolling := false, intervalActive := false }

/-- The synchronous prefix of `poll` (lines 15–29 of the hook): return if
there is no story id or the view is unmounted; increment the poll counter;
stop without issuing a request once the counter exceeds `MAX_POLLS`;
otherwise issue a `getStoryProgress` request (one more pending call). -/
def doPoll (s : PollState) : PollState :=
  if s.storyId.isNone || !s.mounted then s
  else if s.pollCount + 1 > MAX_POLLS then
    stopPolling { s with pollCount := s.pollCount + 1 }
  else
    { s with pollCount := s.pollCount + 1
             pending := s.pending + 1
             requestsIssued := s.requestsIssued + 1 }

/-- The interval firing: only an active interval invokes `poll`
(`clearInterval` discards pending timer callbacks). -/
def handleTick (s : PollState) : PollState :=
  if s.intervalActive then doPoll s else s

/-- The continuation of `poll` after `await getStoryProgress` resolves
(lines 29–42): if the view has unmounted, return before any state update;
otherwise write `progress`, `scenes` (`data.scenes || []`) and `status`,
and stop polling on a terminal status. -/
def handleResponse (s : PollState) (d : ProgressResponse) : PollState :=
  if s.pending = 0 then s
  else if !s.mounted then
    { s with pending := s.pending - 1
             terminalObserved := s.terminalObserved || d.status.isTerminal }
  else if d.status.isTerminal then
    stopPolling { s with pending := s.pending - 1
                         progress := d.progress
                         scenes := d.scenes.getD []
                         status := HookStatus.ofResp d.status
                         terminalObserved := s.terminalObserved || d.status.isTerminal }
  else
    { s with pending := s.pending - 1
             progress := d.progress
             scenes := d.scenes.getD []
             status := HookStatus.ofResp d.status
             terminalObserved := s.terminalObserved || d.status.isTerminal }

/-- The continuation of `poll` when `getStoryProgress` rejects (lines 43–45):
`console.error` only — no state is touched, the interval is left alone. -/
def handleFailure (s : PollState) : PollState :=
  if s.pending = 0 then s else { s with pending := s.pending - 1 }

/-- The effect cleanup (lines 78–81): `isMountedRef.current = false;
stopPolling()`. -/
def handleUnmount (s : PollState) : PollState :=
  stopPolling { s with mounted := false }

/-- One transition of the polling state machine. -/
def pollStep (s : PollState) : PollEvent → PollState
  | .tick => handleTick s
  | .response d => handleResponse s d
  | .failure => handleFailure s
  | .unmount => handleUnmount s

/-- The state right after the effect ran `startPolling` for story `id`:
`isPolling` set, `pollCountRef.current = 0`, interval installed; the
immediate `poll()` is the first `tick`. -/
def initPollState (id : String) : PollState :=
  { storyId := some id
    mounted := true
    isPolling := true
    intervalActive := true
    pollCount := 0
    pending := 0
    progress := none
    scenes := []
    status := .idle
    requestsIssued := 0
    terminalObserved := false }

/-- The state after a sequence of events from the initial state for `id`. -/
def pollRun (id : String) (es : List PollEvent) : PollState :=
  es.foldl pollStep (initPollState id)

/-- The inductive invariant of the polling machine: the ghost request count
never exceeds the poll counter nor `MAX_POLLS`; after a terminal response has
been processed the interval is cleared; after unmount the interval is
cleared. -/
def PollInv (s : PollState) : Prop :=
  s.requestsIssued ≤ s.pollCount ∧
  s.requestsIssued ≤ MAX_POLLS ∧
  (s.terminalObserved = true → s.intervalActive = false) ∧
  (s.mounted = false → s.intervalActive = false)

/-! ## Full story viewer (`src/frontend/src/app/story/[id]/page.tsx`) -/

/-- One scene as the viewer dereferences it: `scene.scene_order`,
`scene.paragraph_text`, `scene.image_url`, `scene.audio_url` (the audio
element is rendered only when `audio_url` is truthy, hence `Option`). -/
structure ViewerScene where
  scene_order : Nat
  paragraph_text : String
  image_url : String
  audio_url : Option String
  deriving DecidableEq, Repr

/-- The loaded story as the viewer uses it: title and ordered scenes. -/
structure ViewerStory where
  id : String
  title : String
  scenes : List ViewerScene
  deriving DecidableEq, Repr

/-- The lookup `story.scenes[currentScene]`: JavaScript array indexing, `undefined`
out of bounds.  The viewer performs this lookup with no guard on the length
(line 94 of the page). -/
def sceneAt (story : ViewerStory) (i : Nat) : Option ViewerScene :=
  story.scenes.get? i

/-- User/audio events that change `currentScene` in the viewer. -/
inductive ViewerAction where
  | next
  | prev
  | jump (i : Nat)
  | audioEnded
  deriving DecidableEq, Repr

/-- A `jump` comes from one of the position-indicator dots, which are
rendered by `story.scenes.map((_, index) => …)`, so its target is a valid
scene index; the other actions carry no data. -/
def ViewerAction.valid (len : Nat) : ViewerAction → Bool
  | .jump i => decide (i < len)
  | _ => true

/-- The `currentScene` transition of the viewer for a story with `len`
scenes: `nextScene` guards `currentScene < story.scenes.length - 1`;
`prevScene` guards `currentScene > 0`; a dot click calls
`setCurrentScene(index)`; the audio `onEnded` handler advances (after an
800 ms delay) only when `currentScene < story.scenes.length - 1`. -/
def viewerStep (len : Nat) (cur : Nat) : ViewerAction → Nat
  | .next => if cur < len - 1 then cur + 1 else cur
  | .prev => if cur > 0 then cur - 1 else cur
  | .jump i => i
  | .audioEnded => if cur < len - 1 then cur + 1 else cur

/-- The value of `currentScene` after a sequence of viewer actions, from the initial
`useState(0)`. -/
def viewerRun (len : Nat) (as : List ViewerAction) : Nat :=
  as.foldl (viewerStep len) 0

/-! ## Progress bar (`src/unnamed/part_006`, the `{current, total}` variant)

`const percentage = (current / total) * 100;` over JavaScript numbers.
JS numbers are modelled as exact rationals extended with `nan` and signed
infinities: division by zero yields `nan` for `0 / 0` and a signed infinity
otherwise, exactly as IEEE-754 division does; finite arithmetic is kept
exact. -/

/-- A JavaScript number: a finite value, `NaN`, or a signed infinity. -/
inductive JsNum where
  | num (q : Rat)
  | nan
  | posInf
  | negInf
  deriving DecidableEq, Repr

/-- JS division restricted to the operand shapes the progress bar produces
(two finite operands): `0 / 0 = NaN`, `x / 0 = ±Infinity` for `x ≠ 0`. -/
def jsDiv : JsNum → JsNum → JsNum
  | .num a, .num b =>
      if b = 0 then
        if a = 0 then .nan
        else if a > 0 then .posInf
        else .negInf
      else .num (a / b)
  | _, _ => .nan

/-- JS multiplication for the shapes reaching `* 100`: `NaN * x = NaN`,
`±Infinity * c` keeps or flips the sign by the sign of the finite factor
(and is `NaN` when the factor is zero). -/
def jsMul : JsNum → JsNum → JsNum
  | .num a, .num b => .num (a * b)
  | .posInf, .num b => if b > 0 then .posInf else if b < 0 then .negInf else .nan
  | .negInf, .num b => if b > 0 then .negInf else if b < 0 then .posInf else .nan
  | _, _ => .nan

/-- Whether a JS value is a finite number. -/
def JsNum.isFiniteNum : JsNum → Bool
  | .num _ => true
  | _ => false

/-- The `ProgressBar` percentage (`part_006` lines 9–17):
`const percentage = (current / total) * 100;` with no guard on `total`. -/
def progressBarPercentage (current total : Rat) : JsNum :=
  jsMul (jsDiv (.num current) (.num total)) (.num 100)

/-! ## Invariants of the polling machine -/

theorem pollInv_initPollState (id : String) : PollInv (initPollState id) := by
  simp [PollInv, initPollState, MAX_POLLS]

theorem pollInv_pollStep (s : PollState) (e : PollEvent) (h : PollInv s) :
    PollInv (pollStep s e) := by
  obtain ⟨h1, h2, h3, h4⟩ := h
  cases e with
  | tick =>
      simp only [pollStep, handleTick]
      split
      · simp only [doPoll]
        split
        · exact ⟨h1, h2, h3, h4⟩
        · split
          · exact ⟨Nat.le_succ_of_le h1, h2, fun _ => rfl, fun _ => rfl⟩
          · rename_i hguard hceil
            have hc : s.pollCount + 1 ≤ 60 := by simpa [MAX_POLLS] using hceil
            have h2' : s.requestsIssued + 1 ≤ MAX_POLLS := by
              simp only [MAX_POLLS]; omega
            exact ⟨Nat.succ_le_succ h1, h2', h3, h4⟩
      · exact ⟨h1, h2, h3, h4⟩
  | response d =>
      simp only [pollStep, handleResponse]
      split
      · exact ⟨h1, h2, h3, h4⟩
      · split
        · rename_i hpend hunm
          have hm : s.mounted = false := by simpa using hunm
          exact ⟨h1, h2, fun _ => h4 hm, h4⟩
        · split
          · exact ⟨h1, h2, fun _ => rfl, fun _ => rfl⟩
          · rename_i hpend hmnt hterm
            refine ⟨h1, h2, ?_, h4⟩
            intro ht
            have hobs : s.terminalObserved = true := by
              have ht' : (s.terminalObserved || d.status.isTerminal) = true := ht
              rcases Bool.or_eq_true_iff.mp ht' with ho | ho
              · exact ho
              · exact absurd ho hterm
            exact h3 hobs
  | failure =>
      simp only [pollStep, handleFailure]
      split
      · exact ⟨h1, h2, h3, h4⟩
      · exact ⟨h1, h2, h3, h4⟩
  | unmount =>
      exact ⟨h1, h2, fun _ => rfl, fun _ => rfl⟩

theorem pollInv_foldl (s : PollState) (h : PollInv s) (es : List PollEvent) :
    PollInv (es.foldl pollStep s) := by
  induction es generalizing s with
  | nil => exact h
  | cons e es ih => exact ih _ (pollInv_pollStep s e h)

theorem pollInv_pollRun (id : String) (es : List PollEvent) : PollInv (pollRun id es) :=
  pollInv_foldl _ (pollInv_initPollState id) es

/-- Once the interval is cleared no step issues a request, and the interval
stays cleared (nothing but `startPolling` ever re-installs it, and
`startPolling` runs only when the effect first fires for the story id). -/
theorem pollStep_inactive (s : PollState) (e : PollEvent) (h : s.intervalActive = false) :
    (pollStep s e).requestsIssued = s.requestsIssued ∧
    (pollStep s e).intervalActive = false := by
  cases e with
  | tick => simp [pollStep, handleTick, h]
  | response d =>
      simp only [pollStep, handleResponse]
      split
      · exact ⟨rfl, h⟩
      · split
        · exact ⟨rfl, h⟩
        · split
          · exact ⟨rfl, rfl⟩
          · exact ⟨rfl, h⟩
  | failure =>
      simp only [pollStep, handleFailure]
      split <;> exact ⟨rfl, h⟩
  | unmount => exact ⟨rfl, rfl⟩

theorem pollFoldl_inactive (s : PollState) (h : s.intervalActive = false)
    (es : List PollEvent) :
    (es.foldl pollStep s).requestsIssued = s.requestsIssued ∧
    (es.foldl pollStep s).intervalActive = false := by
  induction es generalizing s with
  | nil => exact ⟨rfl, h⟩
  | cons e es ih =>
      obtain ⟨h1, h2⟩ := pollStep_inactive s e h
      obtain ⟨h3, h4⟩ := ih (pollStep s e) h2
      refine ⟨?_, by simpa using h4⟩
      simpa [h1] using h3

/-! ## Claim theorems -/

/-- C1: for every story id and event sequence, the polling hook issues at
most `MAX_POLLS = 60` progress requests, and once a poll response with a
terminal status ("completed" or "failed") has been observed the interval is
cleared and no later event sequence issues any further request. -/
theorem polling_request_ceiling_and_terminal_stop (id : String) (es : List PollEvent) :
    (pollRun id es).requestsIssued ≤ MAX_POLLS ∧
    ((pollRun id es).terminalObserved = true →
      (pollRun id es).intervalActive = false ∧
      ∀ more : List PollEvent,
        (pollRun id (es ++ more)).requestsIssued = (pollRun id es).requestsIssued) := by
  obtain ⟨hA, hB, hC, hD⟩ := pollInv_pollRun id es
  refine ⟨hB, fun hterm => ⟨hC hterm, fun more => ?_⟩⟩
  have heq : pollRun id (es ++ more) = more.foldl pollStep (pollRun id es) := by
    simp [pollRun, List.foldl_append]
  rw [heq]
  exact (pollFoldl_inactive _ (hC hterm) more).1

/-- A progress response carrying the terminal status "completed". -/
def terminalResp : ProgressResponse :=
  { status := .completed
    progress := some { completed := 6, total := 6, percentage := 100 }
    scenes := some [] }

theorem polling_request_ceiling_and_terminal_stop_witness :
    (pollRun "story-1" [.tick, .response terminalResp]).requestsIssued ≤ MAX_POLLS ∧
    (pollRun "story-1" [.tick, .response terminalResp]).intervalActive = false ∧
    (pollRun "story-1" ([.tick, .response terminalResp] ++ [.tick, .tick])).requestsIssued =
      (pollRun "story-1" [.tick, .response terminalResp]).requestsIssued := by
  have h := polling_request_ceiling_and_terminal_stop "story-1" [.tick, .response terminalResp]
  have h2 := h.2 (by rfl)
  exact ⟨h.1, h2.1, h2.2 [.tick, .tick]⟩

/-- C6: a poll response processed after the cleanup has run
(`isMountedRef.current = false`) writes none of `progress`, `scenes`,
`status` — the early return in `poll` fires before any state setter. -/
theorem no_state_update_after_unmount (s : PollState) (d : ProgressResponse)
    (h : s.mounted = false) :
    (pollStep s (.response d)).progress = s.progress ∧
    (pollStep s (.response d)).scenes = s.scenes ∧
    (pollStep s (.response d)).status = s.status := by
  simp only [pollStep, handleResponse]
  split
  · exact ⟨rfl, rfl, rfl⟩
  · simp [h]

/-- A progress response that is still generating, used as a late arrival. -/
def lateResp : ProgressResponse :=
  { status := .generating
    progress := some { completed := 3, total := 6, percentage := 50 }
    scenes := some [] }

theorem no_state_update_after_unmount_witness :
    (pollStep (pollRun "story-2" [.tick, .unmount]) (.response lateResp)).progress =
      (pollRun "story-2" [.tick, .unmount]).progress ∧
    (pollStep (pollRun "story-2" [.tick, .unmount]) (.response lateResp)).scenes =
      (pollRun "story-2" [.tick, .unmount]).scenes ∧
    (pollStep (pollRun "story-2" [.tick, .unmount]) (.response lateResp)).status =
      (pollRun "story-2" [.tick, .unmount]).status :=
  no_state_update_after_unmount (pollRun "story-2" [.tick, .unmount]) lateResp (by rfl)

/-- C7: a failed poll changes nothing observable — the interval stays
installed, `isPolling`, `progress`, `scenes`, `status` and the poll counter
keep their values — and, unmount aside, the only transitions that clear the
interval are a tick that pushes the counter past `MAX_POLLS` and a response
with a terminal status. -/
theorem poll_failure_keeps_loop (s : PollState) :
    ((pollStep s .failure).intervalActive = s.intervalActive ∧
     (pollStep s .failure).isPolling = s.isPolling ∧
     (pollStep s .failure).progress = s.progress ∧
     (pollStep s .failure).scenes = s.scenes ∧
     (pollStep s .failure).status = s.status ∧
     (pollStep s .failure).pollCount = s.pollCount) ∧
    (∀ e : PollEvent, e ≠ .unmount → s.intervalActive = true →
      (pollStep s e).intervalActive = false →
      (e = .tick ∧ MAX_POLLS < s.pollCount + 1) ∨
      (∃ d : ProgressResponse, e = .response d ∧ d.status.isTerminal = true)) := by
  constructor
  · simp only [pollStep, handleFailure]
    split <;> exact ⟨rfl, rfl, rfl, rfl, rfl, rfl⟩
  · intro e hne hact hstop
    cases e with
    | tick =>
        have hrw : pollStep s .tick = doPoll s := by
          simp [pollStep, handleTick, hact]
        rw [hrw] at hstop
        unfold doPoll at hstop
        split at hstop
        · simp [hact] at hstop
        · split at hstop
          · rename_i hguard hceil
            exact Or.inl ⟨rfl, hceil⟩
          · simp [hact] at hstop
    | response d =>
        simp only [pollStep, handleResponse] at hstop
        split at hstop
        · simp [hact] at hstop
        · split at hstop
          · simp [hact] at hstop
          · split at hstop
            · rename_i hterm
              exact Or.inr ⟨d, rfl, hterm⟩
            · simp [hact] at hstop
    | failure =>
        simp only [pollStep, handleFailure] at hstop
        split at hstop <;> simp [hact] at hstop
    | unmount => exact absurd rfl hne

/-- A mounted polling state whose counter already reached the ceiling. -/
def ceilingState : PollState :=
  { initPollState "story-3" with pollCount := MAX_POLLS }

/-- A progress response whose `scenes` array is not ordered by `sceneOrder`:
scene 2 arrives before scene 1. -/
def outOfOrderResp : ProgressResponse :=
  { status := .generating
    progress := some { completed := 2, total := 6, percentage := 33 }
    scenes := some
      [ { id := 2, sceneOrder := 2, paragraphText := "b", imageUrl := some "i2", audioUrl := none }
      , { id := 1, sceneOrder := 1, paragraphText := "a", imageUrl := some "i1", audioUrl := none } ] }

/-- C2: the creation page renders the polled scenes in arrival order, not
sorted by `sceneOrder` — after the hook processes `outOfOrderResp`, the
scene cards are labelled `[2, 1]`, which is not ordered by scene order.
This exhibits the failing input for the claim that the consumer sorts
before rendering. -/
theorem create_page_renders_arrival_order :
    sceneCardOrders (pollRun "story-4" [.tick, .response outOfOrderResp]).scenes = [2, 1] ∧
    ¬ List.Sorted (· ≤ ·)
        (sceneCardOrders (pollRun "story-4" [.tick, .response outOfOrderResp]).scenes) := by
  have h : sceneCardOrders (pollRun "story-4" [.tick, .response outOfOrderResp]).scenes
      = [2, 1] := by rfl
  refine ⟨h, ?_⟩
  rw [h]
  decide

/-- C3 counterexample: a non-success response whose body carries the detail
string "boom"; `getStory` nevertheless raises the fixed message "Story not
found", and `getStoryProgress` and `listStories` likewise ignore the body's
detail — refuting the claim that every operation surfaces the body's detail
when present. -/
theorem client_error_detail_counterexample :
    (HttpResponse.mk false "Internal Server Error" (some "boom")).ok = false ∧
    (HttpResponse.mk false "Internal Server Error" (some "boom")).bodyDetail = some "boom" ∧
    getStoryError (HttpResponse.mk false "Internal Server Error" (some "boom")) ≠ "boom" ∧
    getStoryProgressError (HttpResponse.mk false "Internal Server Error" (some "boom")) ≠ "boom" ∧
    listStoriesError (HttpResponse.mk false "Internal Server Error" (some "boom")) ≠ "boom" := by
  exact ⟨rfl, rfl, by decide, by decide, by decide⟩

/-- C3 (amended): on a non-success response, only `generateStory` extracts
the body's detail string (falling back to a generic message when it is
absent or empty); `getStoryProgress` raises a message built from the HTTP
status text, and `getStory` and `listStories` raise fixed generic messages
regardless of the body. -/
theorem client_error_messages (r : HttpResponse) :
    (∀ d, r.bodyDetail = some d → d ≠ "" → generateStoryError r = d) ∧
    (r.bodyDetail = none ∨ r.bodyDetail = some "" →
      generateStoryError r = "Failed to generate story") ∧
    getStoryProgressError r = "Failed to fetch progress: " ++ r.statusText ∧
    getStoryError r = "Story not found" ∧
    listStoriesError r = "Failed to list stories" := by
  refine ⟨?_, ?_, rfl, rfl, rfl⟩
  · intro d hd hne
    simp [generateStoryError, jsStringOr, hd, hne]
  · rintro (h | h) <;> simp [generateStoryError, jsStringOr, h]

theorem client_error_messages_witness :
    generateStoryError (HttpResponse.mk false "Bad Request" (some "Child name is required")) =
      "Child name is required" ∧
    generateStoryError (HttpResponse.mk false "Bad Request" none) = "Failed to generate story" ∧
    generateStoryError (HttpResponse.mk false "Bad Request" (some "")) =
      "Failed to generate story" ∧
    getStoryError (HttpResponse.mk false "Bad Request" none) = "Story not found" :=
  ⟨(client_error_messages (HttpResponse.mk false "Bad Request" (some "Child name is required"))).1
      "Child name is required" rfl (by decide),
   (client_error_messages (HttpResponse.mk false "Bad Request" none)).2.1 (Or.inl rfl),
   (client_error_messages (HttpResponse.mk false "Bad Request" (some ""))).2.1 (Or.inr rfl),
   (client_error_messages (HttpResponse.mk false "Bad Request" none)).2.2.2.1⟩

/-- C4: submitting the creation wizard with an empty trimmed child name or
prompt sets the inline error and issues no generate request; with both
non-empty it clears the error and passes the form's `child_name`, `prompt`,
`story_length`, `story_tone`, `theme`, `image_style` and `voice` to the
generation hook. -/
theorem handleGenerate_validates_and_submits (f : CreateForm) :
    (jsTrim f.childName = "" ∨ jsTrim f.prompt = "" →
      handleGenerate f = ("Please enter child name and story idea!  🎈", none)) ∧
    (jsTrim f.childName ≠ "" → jsTrim f.prompt ≠ "" →
      handleGenerate f =
        ("", some { child_name := f.childName
                    prompt := f.prompt
                    story_length := f.storyLength
                    story_tone := f.storyTone
                    theme := f.theme
                    image_style := f.imageStyle
                    voice := f.voice })) := by
  constructor
  · intro h
    simp [handleGenerate, h]
  · intro h1 h2
    simp [handleGenerate, h1, h2]

theorem handleGenerate_validates_and_submits_witness :
    handleGenerate { childName := "  ", prompt := "a brave knight", storyLength := .short
                     storyTone := .gentle, theme := "dragon"
                     imageStyle := "Pixar 3D style, vibrant colors, detailed"
                     voice := "en-US-Wavenet-F" } =
      ("Please enter child name and story idea!  🎈", none) ∧
    handleGenerate { childName := "Lily", prompt := "a brave knight", storyLength := .short
                     storyTone := .gentle, theme := "dragon"
                     imageStyle := "Pixar 3D style, vibrant colors, detailed"
                     voice := "en-US-Wavenet-F" } =
      ("", some { child_name := "Lily", prompt := "a brave knight", story_length := .short
                  story_tone := .gentle, theme := "dragon"
                  image_style := "Pixar 3D style, vibrant colors, detailed"
                  voice := "en-US-Wavenet-F" }) :=
  ⟨(handleGenerate_validates_and_submits _).1 (Or.inl (by decide)),
   (handleGenerate_validates_and_submits _).2 (by decide) (by decide)⟩

/-- One viewer action keeps the scene index within `0 .. len - 1`. -/
theorem viewerStep_le (len cur : Nat) (a : ViewerAction) (hcur : cur ≤ len - 1)
    (ha : ViewerAction.valid len a = true) : viewerStep len cur a ≤ len - 1 := by
  cases a with
  | next => simp only [viewerStep]; split <;> omega
  | prev => simp only [viewerStep]; split <;> omega
  | jump i =>
      have : i < len := by simpa [ViewerAction.valid] using ha
      simp only [viewerStep]; omega
  | audioEnded => simp only [viewerStep]; split <;> omega

theorem viewerFoldl_le (len : Nat) (as : List ViewerAction) (cur : Nat)
    (hcur : cur ≤ len - 1) (hv : ∀ a ∈ as, ViewerAction.valid len a = true) :
    as.foldl (viewerStep len) cur ≤ len - 1 := by
  induction as generalizing cur with
  | nil => simpa using hcur
  | cons a as ih =>
      simp only [List.foldl_cons]
      exact ih _ (viewerStep_le len cur a hcur (hv a (by simp)))
        (fun b hb => hv b (by simp [hb]))

/-- C5: for a loaded story with `len ≥ 1` scenes, `currentScene` stays within
`0 .. len - 1` under every sequence of valid control actions (next, prev,
indicator-dot jump, audio `onEnded` auto-advance); moreover `nextScene` and
the `onEnded` advance are no-ops at the last scene, and `prevScene` is a
no-op at the first. -/
theorem viewer_scene_index_invariant (len : Nat) (as : List ViewerAction)
    (_hlen : 1 ≤ len) (hv : ∀ a ∈ as, ViewerAction.valid len a = true) :
    viewerRun len as ≤ len - 1 ∧
    viewerStep len (len - 1) .next = len - 1 ∧
    viewerStep len 0 .prev = 0 ∧
    viewerStep len (len - 1) .audioEnded = len - 1 := by
  refine ⟨viewerFoldl_le len as 0 (by omega) hv, ?_, ?_, ?_⟩
  · simp [viewerStep]
  · simp [viewerStep]
  · simp [viewerStep]

theorem viewer_scene_index_invariant_witness :
    viewerRun 3 [.next, .jump 2, .audioEnded, .prev] ≤ 3 - 1 ∧
    viewerStep 3 (3 - 1) .next = 3 - 1 ∧
    viewerStep 3 0 .prev = 0 ∧
    viewerStep 3 (3 - 1) .audioEnded = 3 - 1 :=
  viewer_scene_index_invariant 3 [.next, .jump 2, .audioEnded, .prev]
    (by decide) (by decide)

/-- C8: without an explicit limit, `listStories` requests the list endpoint
with `limit=10` and `getStories` with `limit=20`; with an explicit limit
`n`, both request exactly `limit=n`. -/
theorem list_limits_defaults :
    listStoriesUrl none = "http://127.0.0.1:8000/api/v1/stories?limit=10" ∧
    getStoriesUrl none = "http://127.0.0.1:8000/api/v1/stories/?limit=20" ∧
    ∀ n : Nat,
      listStoriesUrl (some n) = "http://127.0.0.1:8000/api/v1/stories?limit=" ++ toString n ∧
      getStoriesUrl (some n) = "http://127.0.0.1:8000/api/v1/stories/?limit=" ++ toString n := by
  refine ⟨rfl, rfl, fun n => ⟨rfl, rfl⟩⟩

/-- C9: the viewer's unguarded lookup `story.scenes[currentScene]` at the
initial index 0 yields no value exactly when the fetched story has zero
scenes; it is well-defined (yields a scene) whenever the scenes list is
non-empty. -/
theorem viewer_scene_lookup_empty (story : ViewerStory) :
    (story.scenes = [] → sceneAt story 0 = none) ∧
    (story.scenes ≠ [] → (sceneAt story 0).isSome = true) := by
  constructor
  · intro h
    simp [sceneAt, h]
  · intro h
    cases hs : story.scenes with
    | nil => exact absurd hs h
    | cons a l => simp [sceneAt, hs]

/-- A fetched story with zero scenes. -/
def emptyStory : ViewerStory :=
  { id := "s0", title := "Empty", scenes := [] }

/-- A fetched story with one scene. -/
def oneSceneStory : ViewerStory :=
  { id := "s1", title := "One"
    scenes := [⟨1, "a", "i", none⟩] }

theorem viewer_scene_lookup_empty_witness :
    sceneAt emptyStory 0 = none ∧ (sceneAt oneSceneStory 0).isSome = true :=
  ⟨(viewer_scene_lookup_empty emptyStory).1 rfl,
   (viewer_scene_lookup_empty oneSceneStory).2 (by decide)⟩

/-- C10: the `{current, total}` progress bar computes `(current / total) * 100`
with no guard on `total`: when `total ≠ 0` the result is the exact ratio
times 100; when `total = 0` the result is never a finite number (it is `NaN`
for `current = 0`, the realistic progress state with zero total, and a
signed infinity otherwise). -/
theorem progress_bar_percentage_guard (current total : Rat) :
    (total ≠ 0 → progressBarPercentage current total = .num (current / total * 100)) ∧
    (total = 0 → (progressBarPercentage current total).isFiniteNum = false) ∧
    progressBarPercentage 0 0 = .nan := by
  refine ⟨?_, ?_, by simp [progressBarPercentage, jsDiv, jsMul]⟩
  · intro h
    simp [progressBarPercentage, jsDiv, jsMul, h]
  · intro h
    subst h
    by_cases hc : current = 0
    · simp [progressBarPercentage, jsDiv, jsMul, hc, JsNum.isFiniteNum]
    · by_cases hp : current > 0
      · simp [progressBarPercentage, jsDiv, jsMul, hc, hp, JsNum.isFiniteNum,
          show (0:Rat) < 100 by norm_num]
      · simp [progressBarPercentage, jsDiv, jsMul, hc, hp, JsNum.isFiniteNum,
          show (0:Rat) < 100 by norm_num]

theorem progress_bar_percentage_guard_witness :
    progressBarPercentage 1 3 = .num (1 / 3 * 100) ∧
    (progressBarPercentage 0 0).isFiniteNum = false :=
  ⟨(progress_bar_percentage_guard 1 3).1 (by norm_num),
   (progress_bar_percentage_guard 0 0).2.1 rfl⟩

theorem poll_failure_keeps_loop_witness :
    ((pollStep ceilingState .failure).intervalActive = ceilingState.intervalActive ∧
     (pollStep ceilingState .failure).isPolling = ceilingState.isPolling ∧
     (pollStep ceilingState .failure).progress = ceilingState.progress ∧
     (pollStep ceilingState .failure).scenes = ceilingState.scenes ∧
     (pollStep ceilingState .failure).status = ceilingState.status ∧
     (pollStep ceilingState .failure).pollCount = ceilingState.pollCount) ∧
    ((PollEvent.tick = PollEvent.tick ∧ MAX_POLLS < ceilingState.pollCount + 1) ∨
     (∃ d : ProgressResponse, PollEvent.tick = .response d ∧ d.status.isTerminal = true)) := by
  have h := poll_failure_keeps_loop ceilingState
  exact ⟨h.1, h.2 .tick (by simp) rfl (by rfl)⟩

end FairyStory
